import Mathlib

/-!
Verification of the net-server upload endpoint (`src/app/main.py`,
`create_upload_net`) against its specification.

The endpoint is embedded shallowly:
* the store directory is an association list from path strings to the stored
  byte contents (`Store`);
* gzip and SHA-256 are external library primitives, modelled as an `Env` of
  functions with the properties the code relies on (decompression inverts
  compression; a hex digest prefix is 12 lowercase hex characters);
* the fault injections exercised by the test suite (a failing write, a
  failing read-back/decompress) are explicit boolean flags (`Faults`);
* an HTTP response is its status code plus the `detail` string (`Reply`).
-/

namespace NetServer

/-- Raw payload bytes, as an opaque sequence (values are irrelevant here). -/
abbrev Bytes := List Nat

/-- The store directory: paths with their stored byte contents. -/
abbrev Store := List (String × Bytes)

/-- Look a path up in the store (`Path.exists` / `Path.read_bytes`). -/
def storeLookup : Store → String → Option Bytes
  | [], _ => none
  | (k, v) :: st, p => if p = k then some v else storeLookup st p

/-- Create a file at a path (the write of `gzip.open(..., "xb")`). -/
def storeInsert (st : Store) (p : String) (v : Bytes) : Store :=
  (p, v) :: st

/-- Remove a path from the store (`Path.unlink`). -/
def storeErase : Store → String → Store
  | [], _ => []
  | (k, v) :: st, p => if k = p then storeErase st p else (k, v) :: storeErase st p

/-- One character of the class `[0-9a-f]`: a lowercase hex digit. -/
def isLowerHexChar (c : Char) : Bool :=
  c.isDigit || ('a' ≤ c && c ≤ 'f')

/-- An exact match of the regular expression `nn-[0-9a-f]{12}\.nnue`
spanning the whole character list. -/
def exactNetName (cs : List Char) : Bool :=
  decide (cs.length = 20) && decide (cs.take 3 = ['n', 'n', '-']) &&
    ((cs.drop 3).take 12).all isLowerHexChar &&
    decide (cs.drop 15 = ['.', 'n', 'n', 'u', 'e'])

/-- Embedding of `re.match(r"^nn-[0-9a-f]{12}\.nnue$", s)` being truthy.
In Python, `$` matches at the end of the string, or just before a newline
that ends the string, so a name with one trailing newline also matches. -/
def reMatchNetName (s : String) : Bool :=
  exactNetName s.data ||
    (decide (s.data.getLast? = some '\n') && exactNetName s.data.dropLast)

/-- The 12-character slice `net_file[3:15]`: the fingerprint a valid name
embeds. -/
def claimedFingerprint (s : String) : String :=
  ⟨(s.data.drop 3).take 12⟩

/-- The external library primitives the endpoint uses: gzip compression and
decompression, and `hashlib.sha256(..).hexdigest()[:12]`, together with the
facts the code relies on: gzip decompression inverts gzip compression, and a
truncated hex digest consists of exactly 12 lowercase hex characters. -/
structure Env where
  compress : Bytes → Bytes
  decompress : Bytes → Option Bytes
  round_trip : ∀ b, decompress (compress b) = some b
  sha256hex12 : Bytes → String
  sha256hex12_hex : ∀ b,
    (sha256hex12 b).data.length = 12 ∧ (sha256hex12 b).data.all isLowerHexChar = true

/-- Fault injections of the test suite: `writeFail` models any exception in
the `gzip.open`/`f.write` block other than `FileExistsError`; `readFail`
models an exception while reading back or decompressing the stored file. -/
structure Faults where
  writeFail : Bool
  readFail : Bool
deriving DecidableEq, Repr

/-- The fault-free execution. -/
def noFaults : Faults := ⟨false, false⟩

/-- An HTTP response: its status code and the string carried as the
`detail` field of the JSON body. -/
structure Reply where
  status : Nat
  detail : String
deriving DecidableEq, Repr

/-- The literal pattern text echoed in the mismatch message,
`nn-[0-9a-f]{12}.nnue`. -/
def patternText : String := "nn-[0-9a-f]\x7b12\x7d.nnue"

/-- Shallow embedding of `create_upload_net` from `src/app/main.py`.
Returns the HTTP response and the store directory after the request. -/
def create_upload_net (env : Env) (fl : Faults) (net_file : String)
    (payload : Bytes) (store : Store) : Reply × Store :=
  if net_file = "" then
    (⟨400, "No filename provided in the upload"⟩, store)
  else if !reMatchNetName net_file then
    (⟨400, "Filename " ++ net_file ++ " does not match expected pattern (" ++
        patternText ++ ")"⟩, store)
  else
    let net_file_gz := net_file ++ ".gz"
    if (storeLookup store net_file_gz).isSome then
      (⟨409, "File " ++ net_file ++ " already uploaded"⟩, store)
    else if fl.writeFail then
      -- `net_file_gz.unlink(missing_ok=True)` then HTTP 500
      (⟨500, "Failed to write file " ++ net_file⟩, storeErase store net_file_gz)
    else
      let store1 := storeInsert store net_file_gz (env.compress payload)
      if fl.readFail then
        (⟨500, "Failed to read uploaded file " ++ net_file⟩,
          storeErase store1 net_file_gz)
      else
        match storeLookup store1 net_file_gz with
        | none =>
          (⟨500, "Failed to read uploaded file " ++ net_file⟩,
            storeErase store1 net_file_gz)
        | some stored =>
          match env.decompress stored with
          | none =>
            (⟨500, "Failed to read uploaded file " ++ net_file⟩,
              storeErase store1 net_file_gz)
          | some net_data =>
            if env.sha256hex12 net_data ≠ claimedFingerprint net_file then
              (⟨500, "Invalid hash for uploaded file " ++ net_file⟩,
                storeErase store1 net_file_gz)
            else
              (⟨201, "File uploaded successfully"⟩, store1)

/-- The correctly computed name for a payload, as the test helper
`create_net_file` builds it: `nn-` + truncated hex digest + `.nnue`. -/
def mkNetName (env : Env) (b : Bytes) : String :=
  "nn-" ++ env.sha256hex12 b ++ ".nnue"

/-- A concrete environment used for witnesses: identity compression and a
constant digest. -/
def idEnv : Env where
  compress := fun b => b
  decompress := fun b => some b
  round_trip := fun _ => rfl
  sha256hex12 := fun _ => "0123456789ab"
  sha256hex12_hex := fun _ => ⟨rfl, rfl⟩

/-- A second concrete environment with a different (still invertible)
compression, to exhibit that replies do not depend on the compressed form. -/
def revEnv : Env where
  compress := fun b => b.reverse
  decompress := fun b => some b.reverse
  round_trip := fun b => by simp
  sha256hex12 := fun _ => "0123456789ab"
  sha256hex12_hex := fun _ => ⟨rfl, rfl⟩

/-! ### Store lemmas -/

theorem storeLookup_insert_self (st : Store) (k : String) (v : Bytes) :
    storeLookup (storeInsert st k v) k = some v := by
  simp [storeInsert, storeLookup]

theorem storeErase_insert_self (st : Store) (k : String) (v : Bytes) :
    storeErase (storeInsert st k v) k = storeErase st k := by
  simp [storeInsert, storeErase]

theorem storeErase_of_lookup_none (st : Store) (k : String)
    (h : storeLookup st k = none) : storeErase st k = st := by
  induction st with
  | nil => rfl
  | cons kv st ih =>
    obtain ⟨k', v⟩ := kv
    by_cases hk : k = k'
    · simp [storeLookup, hk] at h
    · simp only [storeLookup, if_neg hk] at h
      have hk' : ¬k' = k := fun h' => hk (Eq.symm h')
      simp [storeErase, if_neg hk', ih h]

theorem storeLookup_erase_self (st : Store) (k : String) :
    storeLookup (storeErase st k) k = none := by
  induction st with
  | nil => rfl
  | cons kv st ih =>
    obtain ⟨k', v⟩ := kv
    by_cases hk : k' = k
    · simp only [storeErase, if_pos hk]; exact ih
    · have hk' : ¬k = k' := fun h' => hk (Eq.symm h')
      simp only [storeErase, if_neg hk, storeLookup, if_neg hk']
      exact ih

/-! ### Name-shape lemmas -/

theorem mkNetName_data (env : Env) (b : Bytes) :
    (mkNetName env b).data =
      ['n', 'n', '-'] ++ (env.sha256hex12 b).data ++ ['.', 'n', 'n', 'u', 'e'] := by
  simp [mkNetName, String.data_append]

theorem mkNetName_ne_empty (env : Env) (b : Bytes) : mkNetName env b ≠ "" := by
  intro h
  have := congrArg String.data h
  rw [mkNetName_data] at this
  simp at this

theorem exactNetName_of_shape (l : List Char) (hlen : l.length = 12)
    (hhex : l.all isLowerHexChar = true) :
    exactNetName (['n', 'n', '-'] ++ l ++ ['.', 'n', 'n', 'u', 'e']) = true := by
  have hd : (['n', 'n', '-'] ++ l ++ ['.', 'n', 'n', 'u', 'e']).drop 3 =
      l ++ ['.', 'n', 'n', 'u', 'e'] := rfl
  simp only [exactNetName, Bool.and_eq_true, decide_eq_true_eq, hd]
  refine ⟨⟨⟨?_, rfl⟩, ?_⟩, ?_⟩
  · simp [hlen]
  · rw [List.take_append_of_le_length (by omega), List.take_of_length_le (by omega), hhex]
  · rw [show (15 : Nat) = 3 + 12 by rfl, ← List.drop_drop, hd,
      List.drop_append_of_le_length (by omega), List.drop_of_length_le (by omega)]
    rfl

theorem claimedFingerprint_of_shape (l : List Char) (hlen : l.length = 12) :
    claimedFingerprint ⟨['n', 'n', '-'] ++ l ++ ['.', 'n', 'n', 'u', 'e']⟩ = ⟨l⟩ := by
  apply String.ext
  show ((['n', 'n', '-'] ++ l ++ ['.', 'n', 'n', 'u', 'e']).drop 3).take 12 = l
  rw [show (['n', 'n', '-'] ++ l ++ ['.', 'n', 'n', 'u', 'e']).drop 3 =
      l ++ ['.', 'n', 'n', 'u', 'e'] from rfl,
    List.take_append_of_le_length (by omega), List.take_of_length_le (by omega)]

theorem reMatchNetName_mkNetName (env : Env) (b : Bytes) :
    reMatchNetName (mkNetName env b) = true := by
  obtain ⟨hlen, hhex⟩ := env.sha256hex12_hex b
  simp only [reMatchNetName, mkNetName_data, Bool.or_eq_true]
  exact Or.inl (exactNetName_of_shape _ hlen hhex)

theorem claimedFingerprint_mkNetName (env : Env) (b : Bytes) :
    claimedFingerprint (mkNetName env b) = env.sha256hex12 b := by
  obtain ⟨hlen, _⟩ := env.sha256hex12_hex b
  have h1 : claimedFingerprint (mkNetName env b) =
      claimedFingerprint ⟨['n', 'n', '-'] ++ (env.sha256hex12 b).data ++
        ['.', 'n', 'n', 'u', 'e']⟩ := by
    unfold claimedFingerprint
    rw [mkNetName_data]
  rw [h1, claimedFingerprint_of_shape _ hlen]

/-! ### Evaluation of the pipeline -/

/-- Functional characterization of `create_upload_net`: the response and the
final store, branch by branch, with all cleanup already carried out (every
failure leaves the store exactly as it was). -/
theorem upload_eval (env : Env) (fl : Faults) (f : String) (payload : Bytes)
    (st : Store) :
    create_upload_net env fl f payload st =
      if f = "" then (⟨400, "No filename provided in the upload"⟩, st)
      else if reMatchNetName f = false then
        (⟨400, "Filename " ++ f ++ " does not match expected pattern (" ++
          patternText ++ ")"⟩, st)
      else if (storeLookup st (f ++ ".gz")).isSome then
        (⟨409, "File " ++ f ++ " already uploaded"⟩, st)
      else if fl.writeFail then (⟨500, "Failed to write file " ++ f⟩, st)
      else if fl.readFail then (⟨500, "Failed to read uploaded file " ++ f⟩, st)
      else if env.sha256hex12 payload = claimedFingerprint f then
        (⟨201, "File uploaded successfully"⟩,
          storeInsert st (f ++ ".gz") (env.compress payload))
      else (⟨500, "Invalid hash for uploaded file " ++ f⟩, st) := by
  simp only [create_upload_net]
  by_cases h1 : f = ""
  · simp [h1]
  simp only [if_neg h1]
  by_cases h2 : reMatchNetName f = true
  case neg =>
    have h2' : reMatchNetName f = false := by
      revert h2; cases reMatchNetName f <;> simp
    simp [h2']
  simp only [h2, Bool.not_true, Bool.false_eq_true, if_false]
  by_cases h3 : (storeLookup st (f ++ ".gz")).isSome = true
  · simp [h3]
  have hnone : storeLookup st (f ++ ".gz") = none := by
    cases h : storeLookup st (f ++ ".gz") <;> simp [h] at h3 ⊢
  simp only [hnone, Option.isSome_none, Bool.false_eq_true, if_false]
  by_cases h4 : fl.writeFail = true
  · simp [h4, storeErase_of_lookup_none _ _ hnone]
  simp only [Bool.not_eq_true] at h4
  simp only [h4, Bool.false_eq_true, if_false]
  by_cases h5 : fl.readFail = true
  · simp [h5, storeErase_insert_self, storeErase_of_lookup_none _ _ hnone]
  simp only [Bool.not_eq_true] at h5
  simp only [h5, Bool.false_eq_true, if_false, storeLookup_insert_self,
    env.round_trip]
  by_cases h6 : env.sha256hex12 payload = claimedFingerprint f
  · simp [h6]
  · simp [h6, storeErase_insert_self, storeErase_of_lookup_none _ _ hnone]

theorem reMatchNetName_ne_empty {f : String} (h : reMatchNetName f = true) :
    f ≠ "" := by
  intro he
  subst he
  exact absurd h (by decide)

/-- A character list passing the exact pattern decomposes as
`nn-` ++ fingerprint ++ `.nnue`, with a 12-character lowercase-hex
fingerprint sitting at positions 3 to 14. -/
theorem exactNetName_decomp (cs : List Char) (h : exactNetName cs = true) :
    ((cs.drop 3).take 12).length = 12 ∧
      ((cs.drop 3).take 12).all isLowerHexChar = true ∧
      cs = "nn-".data ++ (cs.drop 3).take 12 ++ ".nnue".data := by
  simp only [exactNetName, Bool.and_eq_true, decide_eq_true_eq] at h
  obtain ⟨⟨⟨hlen, htake⟩, hhex⟩, hdrop⟩ := h
  refine ⟨?_, hhex, ?_⟩
  · simp [List.length_take, List.length_drop, hlen]
  · have h15 : cs.take 15 = cs.take 3 ++ (cs.drop 3).take 12 := by
      rw [show (15 : Nat) = 3 + 12 from rfl, List.take_add]
    calc cs = cs.take 15 ++ cs.drop 15 := (List.take_append_drop 15 cs).symm
      _ = cs.take 3 ++ (cs.drop 3).take 12 ++ cs.drop 15 := by rw [h15]
      _ = "nn-".data ++ (cs.drop 3).take 12 ++ ".nnue".data := by
          rw [htake, hdrop]

/-- A fresh correctly named upload commits: HTTP 201 and the compressed
payload stored at the target path. -/
theorem upload_commit_eq (env : Env) (b : Bytes) (st : Store)
    (hfresh : storeLookup st (mkNetName env b ++ ".gz") = none) :
    create_upload_net env noFaults (mkNetName env b) b st =
      (⟨201, "File uploaded successfully"⟩,
        storeInsert st (mkNetName env b ++ ".gz") (env.compress b)) := by
  rw [upload_eval]
  simp [mkNetName_ne_empty env b, reMatchNetName_mkNetName env b, hfresh,
    noFaults, claimedFingerprint_mkNetName env b]

/-! ### The claims -/

/-- C1: round-trip law. For every payload `b` with its correctly computed
name `nn-<sha256hex12 b>.nnue`, if the target path `<name>.gz` does not
exist beforehand, the fault-free submission returns HTTP 201 with detail
"File uploaded successfully", and the stored file at `<name>.gz`
decompresses to exactly `b`. -/
theorem claim1_round_trip (env : Env) (b : Bytes) (st : Store)
    (hfresh : storeLookup st (mkNetName env b ++ ".gz") = none) :
    (create_upload_net env noFaults (mkNetName env b) b st).1 =
        ⟨201, "File uploaded successfully"⟩ ∧
      ∃ g, storeLookup (create_upload_net env noFaults (mkNetName env b) b st).2
          (mkNetName env b ++ ".gz") = some g ∧ env.decompress g = some b := by
  rw [upload_commit_eq env b st hfresh]
  exact ⟨rfl, env.compress b, storeLookup_insert_self _ _ _, env.round_trip b⟩

/-- C1 witness: concrete instance of the round-trip law. -/
theorem claim1_round_trip_witness :
    (create_upload_net idEnv noFaults (mkNetName idEnv [7]) [7] []).1 =
        ⟨201, "File uploaded successfully"⟩ ∧
      ∃ g, storeLookup (create_upload_net idEnv noFaults (mkNetName idEnv [7]) [7] []).2
          (mkNetName idEnv [7] ++ ".gz") = some g ∧ idEnv.decompress g = some [7] :=
  claim1_round_trip idEnv [7] [] rfl

/-- C2: hash-mismatch rejection with cleanup. For a validly named upload
whose embedded fingerprint differs from the computed digest, with the
target path initially absent, the fault-free submission returns HTTP 500
with detail "Invalid hash for uploaded file <name>", and the target path
is absent afterwards. -/
theorem claim2_hash_mismatch (env : Env) (f : String) (b : Bytes) (st : Store)
    (hname : reMatchNetName f = true)
    (hmismatch : env.sha256hex12 b ≠ claimedFingerprint f)
    (hfresh : storeLookup st (f ++ ".gz") = none) :
    (create_upload_net env noFaults f b st).1 =
        ⟨500, "Invalid hash for uploaded file " ++ f⟩ ∧
      storeLookup (create_upload_net env noFaults f b st).2 (f ++ ".gz") = none := by
  rw [upload_eval]
  simp [reMatchNetName_ne_empty hname, hname, hmismatch, hfresh, noFaults]

/-- C2 witness: concrete hash-mismatch instance. -/
theorem claim2_hash_mismatch_witness :
    (create_upload_net idEnv noFaults "nn-000000000000.nnue" [7] []).1 =
        ⟨500, "Invalid hash for uploaded file " ++ "nn-000000000000.nnue"⟩ ∧
      storeLookup (create_upload_net idEnv noFaults "nn-000000000000.nnue" [7] []).2
        ("nn-000000000000.nnue" ++ ".gz") = none :=
  claim2_hash_mismatch idEnv "nn-000000000000.nnue" [7] []
    (by decide) (by decide) rfl

/-- C3: no-inconsistent-artifact invariant. Whenever the response is not
HTTP 201 — any of the six failure outcomes, under any fault injection —
the store directory after the request equals the store directory before
it; in particular an initially absent target path stays absent and an
initially empty store stays empty. -/
theorem claim3_no_partial_state (env : Env) (fl : Faults) (f : String)
    (b : Bytes) (st : Store)
    (hfail : (create_upload_net env fl f b st).1.status ≠ 201) :
    (create_upload_net env fl f b st).2 = st := by
  have h := upload_eval env fl f b st
  split_ifs at h
  all_goals rw [h] at hfail ⊢
  all_goals exact absurd rfl hfail

/-- C3 witness: a simulated write failure leaves the empty store empty. -/
theorem claim3_no_partial_state_witness :
    (create_upload_net idEnv ⟨true, false⟩ "nn-0123456789ab.nnue" [7] []).2 = [] :=
  claim3_no_partial_state idEnv ⟨true, false⟩ "nn-0123456789ab.nnue" [7] []
    (by decide)

/-- C4: duplicate-name conflict leaves the winner untouched. Submitting the
same correctly named payload twice with the target path initially absent
gives HTTP 201 on the first call and HTTP 409 with detail
"File <name> already uploaded" on the second, and the second call leaves the
store exactly as the first call produced it. -/
theorem claim4_duplicate_conflict (env : Env) (b : Bytes) (st : Store)
    (hfresh : storeLookup st (mkNetName env b ++ ".gz") = none) :
    (create_upload_net env noFaults (mkNetName env b) b st).1.status = 201 ∧
      (create_upload_net env noFaults (mkNetName env b) b
          (create_upload_net env noFaults (mkNetName env b) b st).2).1 =
        ⟨409, "File " ++ mkNetName env b ++ " already uploaded"⟩ ∧
      (create_upload_net env noFaults (mkNetName env b) b
          (create_upload_net env noFaults (mkNetName env b) b st).2).2 =
        (create_upload_net env noFaults (mkNetName env b) b st).2 := by
  have h1 := upload_commit_eq env b st hfresh
  have h2 : create_upload_net env noFaults (mkNetName env b) b
      (storeInsert st (mkNetName env b ++ ".gz") (env.compress b)) =
      (⟨409, "File " ++ mkNetName env b ++ " already uploaded"⟩,
        storeInsert st (mkNetName env b ++ ".gz") (env.compress b)) := by
    rw [upload_eval]
    simp [mkNetName_ne_empty env b, reMatchNetName_mkNetName env b,
      storeLookup_insert_self]
  rw [h1, h2]
  exact ⟨rfl, rfl, rfl⟩

/-- C4 witness: concrete duplicate submission. -/
theorem claim4_duplicate_conflict_witness :
    (create_upload_net idEnv noFaults (mkNetName idEnv [7]) [7] []).1.status = 201 ∧
      (create_upload_net idEnv noFaults (mkNetName idEnv [7]) [7]
          (create_upload_net idEnv noFaults (mkNetName idEnv [7]) [7] []).2).1 =
        ⟨409, "File " ++ mkNetName idEnv [7] ++ " already uploaded"⟩ ∧
      (create_upload_net idEnv noFaults (mkNetName idEnv [7]) [7]
          (create_upload_net idEnv noFaults (mkNetName idEnv [7]) [7] []).2).2 =
        (create_upload_net idEnv noFaults (mkNetName idEnv [7]) [7] []).2 :=
  claim4_duplicate_conflict idEnv [7] [] rfl

/-- C5: the validator is not bit-exact. The filename
`nn-0123456789ab.nnue` followed by one trailing newline does not match the
pattern exactly, yet `re.match(r"^nn-[0-9a-f]{12}\.nnue$", ...)` accepts it
(Python `$` also matches just before a string-final newline), so the upload
proceeds past validation and — the embedded fingerprint being correct for
the payload — even commits with HTTP 201 instead of returning HTTP 400. -/
theorem claim5_trailing_newline_accepted :
    exactNetName "nn-0123456789ab.nnue\n".data = false ∧
      reMatchNetName "nn-0123456789ab.nnue\n" = true ∧
      (create_upload_net idEnv noFaults "nn-0123456789ab.nnue\n" [7] []).1.status
        = 201 := by
  refine ⟨by decide, by decide, by decide⟩

/-- C6: missing-filename rejection before any I/O. For every payload,
fault injection and prior store, submitting with an empty filename returns
HTTP 400 with detail "No filename provided in the upload" and the store is
untouched. -/
theorem claim6_missing_filename (env : Env) (fl : Faults) (b : Bytes)
    (st : Store) :
    create_upload_net env fl "" b st =
      (⟨400, "No filename provided in the upload"⟩, st) := by
  rw [upload_eval]
  simp

/-- C7: diagnosability of pattern rejection. Every non-empty filename that
fails validation gets HTTP 400 whose detail string contains the offending
filename and the expected pattern text `nn-[0-9a-f]{12}.nnue` verbatim. -/
theorem claim7_pattern_message (env : Env) (fl : Faults) (f : String)
    (b : Bytes) (st : Store) (hne : f ≠ "") (hbad : reMatchNetName f = false) :
    ∃ s1 s2 s3, (create_upload_net env fl f b st).1 =
      ⟨400, s1 ++ f ++ s2 ++ patternText ++ s3⟩ := by
  refine ⟨"Filename ", " does not match expected pattern (", ")", ?_⟩
  rw [upload_eval]
  simp [hne, hbad]

/-- C7 witness: concrete rejected filename. -/
theorem claim7_pattern_message_witness :
    ∃ s1 s2 s3, (create_upload_net idEnv noFaults "bad.nnue" [7] []).1 =
      ⟨400, s1 ++ "bad.nnue" ++ s2 ++ patternText ++ s3⟩ :=
  claim7_pattern_message idEnv noFaults "bad.nnue" [7] [] (by decide) (by decide)

/-- C8: validator–verifier slice invariant. Every filename the validator
accepts carries at positions 3 to 14 — the slice `net_file[3:15]` the
verifier later compares against the computed digest — exactly 12 lowercase
hex characters, and the name is `nn-` ++ slice ++ `.nnue`, possibly
followed by the single trailing newline Python's `$` tolerates. -/
theorem claim8_slice_invariant (s : String) (h : reMatchNetName s = true) :
    (claimedFingerprint s).data.length = 12 ∧
      (claimedFingerprint s).data.all isLowerHexChar = true ∧
      (s = "nn-" ++ claimedFingerprint s ++ ".nnue" ∨
        s = "nn-" ++ claimedFingerprint s ++ ".nnue" ++ "\n") := by
  have hfpdata : (claimedFingerprint s).data = (s.data.drop 3).take 12 := rfl
  simp only [reMatchNetName, Bool.or_eq_true, Bool.and_eq_true,
    decide_eq_true_eq] at h
  rcases h with h | ⟨hlast, hexact⟩
  · obtain ⟨hlen, hhex, hdecomp⟩ := exactNetName_decomp s.data h
    refine ⟨by rw [hfpdata]; exact hlen, by rw [hfpdata]; exact hhex, Or.inl ?_⟩
    apply String.ext
    rw [String.data_append, String.data_append, hfpdata]
    exact hdecomp
  · obtain ⟨hlen, hhex, hdecomp⟩ := exactNetName_decomp s.data.dropLast hexact
    have hsplit : s.data.dropLast ++ ['\n'] = s.data :=
      List.dropLast_append_getLast? '\n' hlast
    have hlen20 : s.data.dropLast.length = 20 := by
      rw [hdecomp]
      simp [hlen]
    have hfp : (s.data.drop 3).take 12 = (s.data.dropLast.drop 3).take 12 := by
      conv_lhs => rw [← hsplit]
      rw [List.drop_append_of_le_length (by omega),
        List.take_append_of_le_length (by simp [List.length_drop, hlen20])]
    refine ⟨?_, ?_, Or.inr ?_⟩
    · rw [hfpdata, hfp]; exact hlen
    · rw [hfpdata, hfp]; exact hhex
    · have hbody : "nn-" ++ claimedFingerprint s ++ ".nnue" =
          ⟨s.data.dropLast⟩ := by
        apply String.ext
        rw [String.data_append, String.data_append, hfpdata, hfp]
        exact hdecomp.symm
      rw [hbody]
      exact String.ext hsplit.symm

/-- C8 witness: an accepted concrete name decomposes around its embedded
fingerprint slice. -/
theorem claim8_slice_invariant_witness :
    (claimedFingerprint "nn-0123456789ab.nnue").data.length = 12 ∧
      (claimedFingerprint "nn-0123456789ab.nnue").data.all isLowerHexChar = true ∧
      ("nn-0123456789ab.nnue" =
          "nn-" ++ claimedFingerprint "nn-0123456789ab.nnue" ++ ".nnue" ∨
        "nn-0123456789ab.nnue" =
          "nn-" ++ claimedFingerprint "nn-0123456789ab.nnue" ++ ".nnue" ++ "\n") :=
  claim8_slice_invariant "nn-0123456789ab.nnue" (by decide)

/-- C9: content-blind conflict detection. If the target path already holds
a stored artifact, any payload submitted under that validated name — under
any fault injection — returns HTTP 409 with detail
"File <name> already uploaded" and leaves the store unchanged; in
particular the outcome never depends on the payload and is never the
hash-mismatch response. -/
theorem claim9_conflict_content_blind (env : Env) (fl : Faults) (f : String)
    (b : Bytes) (st : Store) (hname : reMatchNetName f = true)
    (hsome : (storeLookup st (f ++ ".gz")).isSome = true) :
    create_upload_net env fl f b st =
      (⟨409, "File " ++ f ++ " already uploaded"⟩, st) := by
  rw [upload_eval]
  simp [reMatchNetName_ne_empty hname, hname, hsome]

/-- C9 witness: concrete occupied target path. -/
theorem claim9_conflict_content_blind_witness :
    create_upload_net idEnv noFaults "nn-0123456789ab.nnue" [9, 9]
        [("nn-0123456789ab.nnue.gz", [7])] =
      (⟨409, "File " ++ "nn-0123456789ab.nnue" ++ " already uploaded"⟩,
        [("nn-0123456789ab.nnue.gz", [7])]) :=
  claim9_conflict_content_blind idEnv noFaults "nn-0123456789ab.nnue" [9, 9]
    [("nn-0123456789ab.nnue.gz", [7])] (by decide) rfl

/-- C10: determinism of the externally visible result. Two executions with
the same filename, payload and digest function, the same fault-free (or
identical) fault injection, and the same prior state of the target path —
even with different compression behaviour and different remaining store
contents — return the same status code and the same detail string. -/
theorem claim10_reply_deterministic (env env' : Env) (fl : Faults)
    (f : String) (b : Bytes) (st st' : Store)
    (hhash : env.sha256hex12 = env'.sha256hex12)
    (hsame : storeLookup st (f ++ ".gz") = storeLookup st' (f ++ ".gz")) :
    (create_upload_net env fl f b st).1 = (create_upload_net env' fl f b st').1 := by
  rw [upload_eval, upload_eval, hhash, hsame]
  simp only [apply_ite Prod.fst]

/-- C10 witness: two runs with different compression functions and
different surrounding stores give the same reply. -/
theorem claim10_reply_deterministic_witness :
    (create_upload_net idEnv noFaults "nn-0123456789ab.nnue" [7] []).1 =
      (create_upload_net revEnv noFaults "nn-0123456789ab.nnue" [7]
        [("other.gz", [1])]).1 :=
  claim10_reply_deterministic idEnv revEnv noFaults "nn-0123456789ab.nnue" [7]
    [] [("other.gz", [1])] (by funext x; rfl) (by decide)

example : "ab".data = ['a', 'b'] := rfl
example : ("a" ++ "b") = "ab" := rfl
example : reMatchNetName "nn-0123456789ab.nnue" = true := by decide
example : reMatchNetName "nn-0123456789ab.nnue\n" = true := by decide
example : reMatchNetName "nn-0123456789aB.nnue" = false := by decide
example : reMatchNetName "xnn-0123456789ab.nnue" = false := by decide
example :
    create_upload_net idEnv noFaults "nn-0123456789ab.nnue" [1, 2] [] =
      (⟨201, "File uploaded successfully"⟩, [("nn-0123456789ab.nnue.gz", [1, 2])]) := by
  decide

end NetServer
